import Mathlib

/-!
Verification development for the qlive live-streaming backend
(room lifecycle handlers, account handlers, token resolution and the
real-time-channel error table). Definitions are shallow embeddings of the
Go source under src/; definitions whose Go implementation lives outside
the given files are modelled from the spec and say so in their doc
comment.
-/

namespace QLive

/-- Status of a live room, per the spec data model: Single, PKInviting,
PKConnected or Closed (the handler source uses the constant
protocol.LiveRoomStatusSingle for fresh rooms). -/
inductive RoomStatus where
  | single
  | pkInviting
  | pkConnected
  | closed
  deriving DecidableEq, Repr

/-- A live room record (protocol.LiveRoom): the fields the handler in
src/handler/room.go populates (ID, Name, Creator, PlayURL, RTCRoom,
Status) plus PartnerRoomID from the spec data model. -/
structure LiveRoom where
  id : String
  name : String
  creator : String
  playURL : String
  rtcRoom : String
  status : RoomStatus
  partnerRoomID : Option String
  deriving DecidableEq, Repr

/- ===== C9: the WebSocket error table (src/unnamed/part_000) ===== -/

/-- Embeds the Go map WSErrorToString of src/unnamed/part_000: a partial
map from numeric codes to description strings; none means the code is not
a key of the map. -/
def WSErrorToString (code : Int) : Option String :=
  if code = 0 then some ""
  else if code = 10001 then some "unknown message"
  else if code = 10002 then some "token invalid"
  else if code = 10003 then some "no permission"
  else if code = 10011 then some "room no exist"
  else if code = 10012 then some "room in PK"
  else if code = 10013 then some "room not in PK"
  else none

/- ===== C5: phone-number validation (src/handler/account.go) ===== -/

/-- Matches the regular expression of validatePhoneNumber at the head of a
character list: the character 1, then a character from 3 to 9, then nine
decimal digits (possibly followed by more characters). -/
def matchPhoneAt : List Char → Bool
  | c0 :: c1 :: rest =>
      c0 == '1' && (decide ('3' ≤ c1) && decide (c1 ≤ '9')) &&
        (decide (9 ≤ rest.length) && (rest.take 9).all Char.isDigit)
  | _ => false

/-- Matches the regular expression at some position of the list: the
semantics of the unanchored regexp MatchString call of the Go source. -/
def matchAnywhere : List Char → Bool
  | [] => false
  | l@(_ :: rest) => matchPhoneAt l || matchAnywhere rest

/-- Embeds validatePhoneNumber of src/handler/account.go: MatchString with
an unanchored pattern, so it reports whether the pattern occurs anywhere
in the input. -/
def validatePhoneNumber (phoneNumber : String) : Bool :=
  matchAnywhere phoneNumber.data

/-- The well-formedness notion of the claim: an 11-character string that
is the pattern in full, with nothing before or after. -/
def wellFormedPhone (s : String) : Bool :=
  (s.data.length == 11) && matchPhoneAt s.data

/-- Result of the Send call of the SMS collaborator, as the handler
distinguishes it. -/
inductive SMSSendErr where
  | tooFrequent
  | internal
  deriving DecidableEq, Repr

/-- What the SendSMSCode handler did: the HTTP status it answered and
whether it invoked the Send method of the SMS collaborator. -/
structure SMSOutcome where
  httpStatus : Nat
  dispatched : Bool
  deriving DecidableEq, Repr

/-- Embeds AccountHandler.SendSMSCode of src/handler/account.go: a missing
phone query or a failed validatePhoneNumber answers 400 without calling
Send; otherwise Send is invoked and the answer is 429 on a too-frequent
error, 500 on another error, 200 on success. -/
def SendSMSCode (phoneQuery : Option String) (sendErr : Option SMSSendErr) : SMSOutcome :=
  match phoneQuery with
  | none => ⟨400, false⟩
  | some p =>
      if !validatePhoneNumber p then ⟨400, false⟩
      else
        match sendErr with
        | some SMSSendErr.tooFrequent => ⟨429, true⟩
        | some SMSSendErr.internal => ⟨500, true⟩
        | none => ⟨200, true⟩

/- ===== C6: the Logout handler (src/handler/account.go) ===== -/

/-- Models the Go type assertion v.(string) applied to the value read from
the gin context: with no value present the asserted interface is nil and
the assertion panics. -/
def typeAssertString : Option String → Except Unit String
  | none => Except.error ()
  | some s => Except.ok s

/-- What the Logout handler did: the HTTP statuses written in order,
whether AccountLogout was invoked, and whether the handler panicked. -/
structure LogoutOutcome where
  writes : List Nat
  sessionDeleted : Bool
  panicked : Bool
  deriving DecidableEq, Repr

/-- Embeds AccountHandler.Logout of src/handler/account.go: with no user
ID in the context it writes 401 but, lacking a return statement, falls
through to the type assertion id.(string) on nil, which panics before
AccountLogout is called. With an ID present, AccountLogout is called; on
its failure 401 is written and, again with no return, 200 follows; on
success 200 is written. -/
def Logout (ctxUserID : Option String) (logoutFails : Bool) : LogoutOutcome :=
  let w1 : List Nat := match ctxUserID with | none => [401] | some _ => []
  match typeAssertString ctxUserID with
  | Except.error _ => ⟨w1, false, true⟩
  | Except.ok _ =>
      if logoutFails then ⟨w1 ++ [401, 200], true, false⟩
      else ⟨w1 ++ [200], true, false⟩

/- ===== C8: token resolution (src/controller/auth.go) ===== -/

/-- A record of the active-users collection (protocol.ActiveUser): the
account ID and the opaque session token. -/
structure ActiveUser where
  id : String
  token : String
  deriving DecidableEq, Repr

/-- Embeds AuthController.GetIDByToken of src/controller/auth.go: a Find
on the active-users collection filtered by token; the first matching
record yields its account ID, no matching record yields an error (both
error branches of the source return the error unchanged). The collection
is passed through unchanged as the second component: the operation only
reads. -/
def GetIDByToken (activeUsers : List ActiveUser) (token : String) :
    Except String String × List ActiveUser :=
  match activeUsers.find? (fun u => u.token == token) with
  | some u => (Except.ok u.id, activeUsers)
  | none => (Except.error "no documents in result", activeUsers)

/- ===== C4: server error codes and the handler switches
   (src/handler/room.go) ===== -/

/-- Internal server error codes of the errors package. The definitions of
these constants are outside the given files; the constructors model the
distinct codes the source and the spec name, with otherInternal standing
for any further code. -/
inductive ServerErrorCode where
  | roomNameUsed
  | tooManyRooms
  | roomNotFound
  | noPermission
  | smsSendTooFrequent
  | userLoggedin
  | otherInternal
  deriving DecidableEq, Repr

/-- Embeds the ServerError switch of RoomHandler.CreateRoom
(src/handler/room.go lines 103 to 118): RoomNameUsed answers 409,
TooManyRooms answers 503, every other code falls to the default branch
and answers 500. -/
def createRoomErrStatus : ServerErrorCode → Nat
  | ServerErrorCode.roomNameUsed => 409
  | ServerErrorCode.tooManyRooms => 503
  | _ => 500

/-- Embeds the ServerError switch of RoomHandler.CloseRoom
(src/handler/room.go lines 184 to 194): RoomNotFound answers 404, every
other code falls to the default branch and answers 500. -/
def closeRoomErrStatus : ServerErrorCode → Nat
  | ServerErrorCode.roomNotFound => 404
  | _ => 500

/- ===== C1, C3: the room listing handlers (src/handler/room.go) ===== -/

/-- One entry of a ListRoomsResponse (protocol.GetRoomResponse as the
handler fills it): room ID and name. -/
structure GetRoomResponse where
  id : String
  name : String
  deriving DecidableEq, Repr

/-- Modelled from the spec: RoomInterface.ListPKRooms is declared in
src/handler/room.go but implemented outside the given files; per the spec
it returns rooms with Status=Single excluding any room owned by the
caller. -/
def listPKRooms (rooms : List LiveRoom) (userID : String) : List LiveRoom :=
  rooms.filter (fun r => r.status == RoomStatus.single && r.creator != userID)

/-- Embeds RoomHandler.ListCanPKRooms of src/handler/room.go lines 44 to
59: it fetches ListPKRooms, builds a response value resp with the ID and
Name of each room, and ends without any c.JSON call. First component: the
resp value built in the body; second component: the JSON bodies actually
written to the caller, in order. -/
def ListCanPKRooms (rooms : List LiveRoom) (userID : String) :
    List GetRoomResponse × List (List GetRoomResponse) :=
  (((listPKRooms rooms userID).map fun r => { id := r.id, name := r.name }), [])

/-- Embeds RoomHandler.ListAllRooms of src/handler/room.go lines 62 to
64: the function body is empty, so no JSON body is ever written. -/
def ListAllRooms (_rooms : List LiveRoom) : List (List GetRoomResponse) :=
  []

/-- Embeds RoomHandler.ListRooms of src/handler/room.go lines 33 to 41:
with query can_pk equal to "true" it delegates to ListCanPKRooms,
otherwise to ListAllRooms. Result: the JSON bodies written to the
caller. -/
def ListRooms (canPKQuery : Option String) (rooms : List LiveRoom) (userID : String) :
    List (List GetRoomResponse) :=
  if canPKQuery = some "true" then (ListCanPKRooms rooms userID).2
  else ListAllRooms rooms

/- ===== C7, C10: the CreateRoom handler (src/handler/room.go) ===== -/

/-- A room handler with its configured live host and hub
(RoomHandler struct of src/handler/room.go). -/
structure RoomHandler where
  liveHost : String
  liveHub : String

/-- Embeds validateRoomName of src/handler/room.go lines 131 to 137: the
byte length of the name must be positive and at most 100 (Go len on a
string counts bytes). -/
def validateRoomName (roomName : String) : Bool :=
  !(roomName.utf8ByteSize == 0 || roomName.utf8ByteSize > 100)

/-- The alphabet of generateRoomID (src/handler/room.go line 142). -/
def alphaNum : List Char := "0123456789abcdefghijklmnopqrstuvwxyz".data

theorem alphaNum_length : alphaNum.length = 36 := rfl

/-- Embeds generateRoomID of src/handler/room.go lines 141 to 150:
sixteen characters picked from alphaNum; the function r models the
successive results of rand.Intn applied to the alphabet length 36. -/
def generateRoomID (r : Nat → Fin 36) : String :=
  String.mk ((List.range 16).map fun i => alphaNum.get (Fin.cast alphaNum_length.symm (r i)))

/-- Embeds generatePlayURL of src/handler/room.go lines 152 to 154. -/
def RoomHandler.generatePlayURL (h : RoomHandler) (roomID : String) : String :=
  "rtmp://" ++ h.liveHost ++ "/" ++ h.liveHub ++ "/" ++ roomID

/-- Embeds generateRTCRoomToken of src/handler/room.go lines 156 to 159:
the body is a TODO and returns the empty string. -/
def generateRTCRoomToken (_roomID : String) : String := ""

/-- The response body of a successful room creation
(protocol.CreateRoomResponse as the handler fills it). -/
structure CreateRoomResponse where
  roomID : String
  roomName : String
  rtcRoom : String
  rtcRoomToken : String
  deriving DecidableEq, Repr

/-- What the CreateRoom handler did after JSON binding: rejected the
name, answered a storage error with an HTTP status, or succeeded with the
room handed to storage and the response body sent. -/
inductive CreateRoomResult where
  | invalidName
  | storageError (httpStatus : Nat)
  | ok (room : LiveRoom) (resp : CreateRoomResponse)
  deriving DecidableEq, Repr

/-- Embeds RoomHandler.CreateRoom of src/handler/room.go lines 66 to 128
(after JSON binding): a failed validateRoomName answers 400 invalid
name; otherwise the room is built with a generated ID and handed to
storage; a storage ServerError is answered per createRoomErrStatus; on
success the response carries the room ID, name, RTC room and the token
of generateRTCRoomToken. -/
def RoomHandler.CreateRoom (h : RoomHandler) (userID roomName : String)
    (r : Nat → Fin 36) (storageErr : Option ServerErrorCode) : CreateRoomResult :=
  if validateRoomName roomName = false then CreateRoomResult.invalidName
  else
    let roomID := generateRoomID r
    let room : LiveRoom :=
      { id := roomID, name := roomName, creator := userID,
        playURL := h.generatePlayURL roomID, rtcRoom := roomID,
        status := RoomStatus.single, partnerRoomID := none }
    match storageErr with
    | some e => CreateRoomResult.storageError (createRoomErrStatus e)
    | none =>
        CreateRoomResult.ok room
          { roomID := roomID, roomName := roomName, rtcRoom := roomID,
            rtcRoomToken := generateRTCRoomToken roomID }

/- ===== C2: the room collection state machine (spec section 4.2) ===== -/

/-- Modelled from the spec: the storage side of
RoomLifecycleService.CreateRoom (its implementation is outside the given
files). It atomically inserts a new room with Status=Single and no
partner, guarded by ID uniqueness (the IDGenerator retries against the
uniqueness constraint) and by Name uniqueness among non-closed rooms;
none models the RoomNameUsed or conflict failure. -/
def createRoomOp (s : List LiveRoom) (creatorID roomID roomName playURL : String) :
    Option (List LiveRoom) :=
  if s.any (fun r => r.id == roomID) then none
  else if s.any (fun r => r.name == roomName && r.status != RoomStatus.closed) then none
  else
    some ({ id := roomID, name := roomName, creator := creatorID, playURL := playURL,
            rtcRoom := roomID, status := RoomStatus.single,
            partnerRoomID := none } :: s)

/-- The per-room update the pairing transition applies: the caller room
and the target room become PKConnected with mutual PartnerRoomID, every
other room is unchanged. -/
def pkUpdate (a b : String) (r : LiveRoom) : LiveRoom :=
  if r.id = a then { r with status := RoomStatus.pkConnected, partnerRoomID := some b }
  else if r.id = b then { r with status := RoomStatus.pkConnected, partnerRoomID := some a }
  else r

/-- Modelled from the spec: RequestPK of RoomLifecycleService (its
implementation is outside the given files). Both rooms must exist and be
Status=Single; the two rooms are distinct; both transition to PKConnected
with mutual PartnerRoomID in one atomic operation; none models the
RoomNoExist and RoomInPK failures. -/
def requestPK (s : List LiveRoom) (callerRoomID targetRoomID : String) :
    Option (List LiveRoom) :=
  if callerRoomID = targetRoomID then none
  else
    match s.find? (fun r => r.id == callerRoomID) with
    | none => none
    | some ra =>
        match s.find? (fun r => r.id == targetRoomID) with
        | none => none
        | some rb =>
            if ra.status = RoomStatus.single ∧ rb.status = RoomStatus.single then
              some (s.map (pkUpdate callerRoomID targetRoomID))
            else none

/-- The per-room update closing applies, where r is the room being
closed: r becomes Closed with its partner cleared; if r was PKConnected,
the partner room reverts to Single with its partner cleared; every other
room is unchanged. -/
def closeUpdate (r : LiveRoom) (roomID : String) (x : LiveRoom) : LiveRoom :=
  if x.id = roomID then { x with status := RoomStatus.closed, partnerRoomID := none }
  else if r.status = RoomStatus.pkConnected ∧ r.partnerRoomID = some x.id then
    { x with status := RoomStatus.single, partnerRoomID := none }
  else x

/-- Modelled from the spec: CloseRoom of RoomLifecycleService (its
implementation is outside the given files). It fails NoPermission when
the caller is not the Creator and RoomNoExist when the room is missing
(both modelled as none); otherwise the room becomes Closed and, if it was
PKConnected, its partner atomically reverts to Single with PartnerRoomID
cleared. -/
def closeRoomOp (s : List LiveRoom) (callerID roomID : String) : Option (List LiveRoom) :=
  match s.find? (fun r => r.id == roomID) with
  | none => none
  | some r =>
      if r.creator = callerID then some (s.map (closeUpdate r roomID))
      else none

/-- States of the room collection reachable from the empty collection by
successful CreateRoom, RequestPK and CloseRoom operations. -/
inductive ReachableRoomState : List LiveRoom → Prop where
  | init : ReachableRoomState []
  | create {s s2 : List LiveRoom} {c rid rn pu : String} :
      ReachableRoomState s → createRoomOp s c rid rn pu = some s2 → ReachableRoomState s2
  | pk {s s2 : List LiveRoom} {a b : String} :
      ReachableRoomState s → requestPK s a b = some s2 → ReachableRoomState s2
  | close {s s2 : List LiveRoom} {caller rid : String} :
      ReachableRoomState s → closeRoomOp s caller rid = some s2 → ReachableRoomState s2

/-- The inductive invariant of the room collection: room IDs are distinct,
and any room holding a PartnerRoomID is PKConnected, does not point to
itself, and points to a room of the collection that points back and is
PKConnected as well. -/
def RoomInv (s : List LiveRoom) : Prop :=
  (s.map (fun r => r.id)).Nodup ∧
  ∀ A ∈ s, ∀ pid, A.partnerRoomID = some pid →
    A.status = RoomStatus.pkConnected ∧ pid ≠ A.id ∧
    ∃ B ∈ s, B.id = pid ∧ B.partnerRoomID = some A.id ∧
      B.status = RoomStatus.pkConnected

theorem mem_id_unique {s : List LiveRoom} (hnd : (s.map (fun r => r.id)).Nodup)
    {X Y : LiveRoom} (hX : X ∈ s) (hY : Y ∈ s) (h : X.id = Y.id) : X = Y :=
  List.inj_on_of_nodup_map hnd hX hY h

theorem pkUpdate_id (a b : String) (r : LiveRoom) : (pkUpdate a b r).id = r.id := by
  unfold pkUpdate
  split_ifs <;> rfl

theorem closeUpdate_id (r : LiveRoom) (roomID : String) (x : LiveRoom) :
    (closeUpdate r roomID x).id = x.id := by
  unfold closeUpdate
  split_ifs <;> rfl

theorem map_id_of_update {s : List LiveRoom} {f : LiveRoom → LiveRoom}
    (hf : ∀ x, (f x).id = x.id) :
    (s.map f).map (fun r => r.id) = s.map (fun r => r.id) := by
  rw [List.map_map]
  exact List.map_congr_left (fun x _ => hf x)

theorem roomInv_create {s s2 : List LiveRoom} {c rid rn pu : String}
    (hinv : RoomInv s) (h : createRoomOp s c rid rn pu = some s2) : RoomInv s2 := by
  obtain ⟨hnd, hpart⟩ := hinv
  unfold createRoomOp at h
  split_ifs at h with h1 h2
  injection h with h
  subst h
  constructor
  · simp only [List.map_cons]
    refine List.nodup_cons.mpr ⟨?_, hnd⟩
    intro hmem
    obtain ⟨r, hr, hrid⟩ := List.mem_map.mp hmem
    exact h1 (List.any_eq_true.mpr ⟨r, hr, beq_iff_eq.mpr hrid⟩)
  · intro A hA pid hpid
    rcases List.mem_cons.mp hA with hAnew | hAold
    · subst hAnew
      simp at hpid
    · obtain ⟨hstat, hne, B, hB, hrest⟩ := hpart A hAold pid hpid
      exact ⟨hstat, hne, B, List.mem_cons_of_mem _ hB, hrest⟩

theorem roomInv_pk {s s2 : List LiveRoom} {a b : String}
    (hinv : RoomInv s) (h : requestPK s a b = some s2) : RoomInv s2 := by
  obtain ⟨hnd, hpart⟩ := hinv
  unfold requestPK at h
  split_ifs at h with hab
  split at h
  next => exact absurd h (by simp)
  next ra hfa =>
    split at h
    next => exact absurd h (by simp)
    next rb hfb =>
      split_ifs at h with hcond
      injection h with h
      subst h
      obtain ⟨hras, hrbs⟩ := hcond
      have hramem : ra ∈ s := List.mem_of_find?_eq_some hfa
      have hrbmem : rb ∈ s := List.mem_of_find?_eq_some hfb
      have hraid : ra.id = a := by simpa using List.find?_some hfa
      have hrbid : rb.id = b := by simpa using List.find?_some hfb
      constructor
      · rw [map_id_of_update (pkUpdate_id a b)]
        exact hnd
      · intro A2 hA2 pid hpid
        obtain ⟨A, hA, rfl⟩ := List.mem_map.mp hA2
        by_cases hAa : A.id = a
        · have hup : pkUpdate a b A =
              { A with status := RoomStatus.pkConnected, partnerRoomID := some b } := by
            unfold pkUpdate
            rw [if_pos hAa]
          rw [hup] at hpid ⊢
          have hpidb : pid = b := by simpa using hpid.symm
          rw [hpidb]
          have hrbna : ¬ rb.id = a := by
            rw [hrbid]
            exact fun hh => hab hh.symm
          have hrbup : pkUpdate a b rb =
              { rb with status := RoomStatus.pkConnected, partnerRoomID := some a } := by
            unfold pkUpdate
            rw [if_neg hrbna, if_pos hrbid]
          refine ⟨rfl, ?_, ?_⟩
          · show ¬ b = A.id
            rw [hAa]
            exact fun hh => hab hh.symm
          · refine ⟨pkUpdate a b rb, List.mem_map_of_mem _ hrbmem, ?_, ?_, ?_⟩
            · rw [hrbup]; exact hrbid
            · rw [hrbup]
              show some a = some A.id
              rw [hAa]
            · rw [hrbup]
        · by_cases hAb : A.id = b
          · have hup : pkUpdate a b A =
                { A with status := RoomStatus.pkConnected, partnerRoomID := some a } := by
              unfold pkUpdate
              rw [if_neg hAa, if_pos hAb]
            rw [hup] at hpid ⊢
            have hpida : pid = a := by simpa using hpid.symm
            rw [hpida]
            have hraup : pkUpdate a b ra =
                { ra with status := RoomStatus.pkConnected, partnerRoomID := some b } := by
              unfold pkUpdate
              rw [if_pos hraid]
            refine ⟨rfl, ?_, ?_⟩
            · show ¬ a = A.id
              rw [hAb]
              exact fun hh => hab hh
            · refine ⟨pkUpdate a b ra, List.mem_map_of_mem _ hramem, ?_, ?_, ?_⟩
              · rw [hraup]; exact hraid
              · rw [hraup]
                show some b = some A.id
                rw [hAb]
              · rw [hraup]
          · have hup : pkUpdate a b A = A := by
              unfold pkUpdate
              rw [if_neg hAa, if_neg hAb]
            rw [hup] at hpid ⊢
            obtain ⟨hstat, hne, B, hB, hBid, hBpart, hBstat⟩ := hpart A hA pid hpid
            have hBna : ¬ B.id = a := by
              intro hh
              have hBra : B = ra := mem_id_unique hnd hB hramem (by rw [hh, hraid])
              rw [hBra] at hBstat
              rw [hras] at hBstat
              exact absurd hBstat (by decide)
            have hBnb : ¬ B.id = b := by
              intro hh
              have hBrb : B = rb := mem_id_unique hnd hB hrbmem (by rw [hh, hrbid])
              rw [hBrb] at hBstat
              rw [hrbs] at hBstat
              exact absurd hBstat (by decide)
            have hBup : pkUpdate a b B = B := by
              unfold pkUpdate
              rw [if_neg hBna, if_neg hBnb]
            exact ⟨hstat, hne, pkUpdate a b B,
              List.mem_map_of_mem _ hB, by rw [hBup]; exact hBid,
              by rw [hBup]; exact hBpart, by rw [hBup]; exact hBstat⟩

theorem roomInv_close {s s2 : List LiveRoom} {caller rid : String}
    (hinv : RoomInv s) (h : closeRoomOp s caller rid = some s2) : RoomInv s2 := by
  obtain ⟨hnd, hpart⟩ := hinv
  unfold closeRoomOp at h
  split at h
  next => exact absurd h (by simp)
  next r hfr =>
    split_ifs at h with hcr
    injection h with h
    subst h
    have hrmem : r ∈ s := List.mem_of_find?_eq_some hfr
    have hrid : r.id = rid := by simpa using List.find?_some hfr
    constructor
    · rw [map_id_of_update (closeUpdate_id r rid)]
      exact hnd
    · intro A2 hA2 pid hpid
      obtain ⟨A, hA, rfl⟩ := List.mem_map.mp hA2
      by_cases hArid : A.id = rid
      · have hup : closeUpdate r rid A =
            { A with status := RoomStatus.closed, partnerRoomID := none } := by
          unfold closeUpdate
          rw [if_pos hArid]
        rw [hup] at hpid
        exact absurd hpid (by simp)
      · by_cases hApartner : r.status = RoomStatus.pkConnected ∧ r.partnerRoomID = some A.id
        · have hup : closeUpdate r rid A =
              { A with status := RoomStatus.single, partnerRoomID := none } := by
            unfold closeUpdate
            rw [if_neg hArid, if_pos hApartner]
          rw [hup] at hpid
          exact absurd hpid (by simp)
        · have hup : closeUpdate r rid A = A := by
            unfold closeUpdate
            rw [if_neg hArid, if_neg hApartner]
          rw [hup] at hpid ⊢
          obtain ⟨hstat, hne, B, hB, hBid, hBpart, hBstat⟩ := hpart A hA pid hpid
          have hBnrid : ¬ B.id = rid := by
            intro hh
            have hBr : B = r := mem_id_unique hnd hB hrmem (by rw [hh, hrid])
            rw [hBr] at hBpart hBstat
            exact hApartner ⟨hBstat, hBpart⟩
          have hBsecond : ¬ (r.status = RoomStatus.pkConnected ∧
              r.partnerRoomID = some B.id) := by
            intro ⟨hpk, hrp⟩
            obtain ⟨_, _, D, hD, hDid, hDpart, _⟩ := hpart r hrmem B.id hrp
            have hDB : D = B := mem_id_unique hnd hD hB hDid
            rw [hDB] at hDpart
            rw [hBpart] at hDpart
            have : A.id = r.id := by simpa using hDpart
            exact hArid (this.trans hrid)
          have hBup : closeUpdate r rid B = B := by
            unfold closeUpdate
            rw [if_neg hBnrid, if_neg hBsecond]
          exact ⟨hstat, hne, closeUpdate r rid B, List.mem_map_of_mem _ hB,
            by rw [hBup]; exact hBid, by rw [hBup]; exact hBpart,
            by rw [hBup]; exact hBstat⟩

theorem roomInv_reachable {s : List LiveRoom} (h : ReachableRoomState s) : RoomInv s := by
  induction h with
  | init => exact ⟨List.nodup_nil, fun A hA => absurd hA (List.not_mem_nil A)⟩
  | create _ hop ih => exact roomInv_create ih hop
  | pk _ hop ih => exact roomInv_pk ih hop
  | close _ hop ih => exact roomInv_close ih hop

/-- C2: in every reachable state of the room collection, pairing is
symmetric: if room A names B as its partner then B names A back, both
are PKConnected, and no third room besides A can simultaneously name B
as its partner. -/
theorem reachable_pk_partner_symmetric {s : List LiveRoom}
    (hs : ReachableRoomState s) {A B : LiveRoom} (hA : A ∈ s) (hB : B ∈ s)
    (hAB : A.partnerRoomID = some B.id) :
    B.partnerRoomID = some A.id ∧ A.status = RoomStatus.pkConnected ∧
    B.status = RoomStatus.pkConnected ∧
    ∀ C ∈ s, C.partnerRoomID = some B.id → C = A := by
  obtain ⟨hnd, hpart⟩ := roomInv_reachable hs
  obtain ⟨hAstat, _, B2, hB2, hB2id, hB2part, hB2stat⟩ := hpart A hA B.id hAB
  have hBB2 : B2 = B := mem_id_unique hnd hB2 hB hB2id
  rw [hBB2] at hB2part hB2stat
  refine ⟨hB2part, hAstat, hB2stat, ?_⟩
  intro C hC hCB
  obtain ⟨_, _, D, hD, hDid, hDpart, _⟩ := hpart C hC B.id hCB
  have hDB : D = B := mem_id_unique hnd hD hB hDid
  rw [hDB] at hDpart
  rw [hB2part] at hDpart
  have hCA : A.id = C.id := by simpa using hDpart
  exact mem_id_unique hnd hC hA hCA.symm

/-- The first created room of the concrete C2 scenario. -/
def roomASingle : LiveRoom :=
  { id := "ra", name := "alice", creator := "u1", playURL := "pa", rtcRoom := "ra",
    status := RoomStatus.single, partnerRoomID := none }

/-- The second created room of the concrete C2 scenario. -/
def roomBSingle : LiveRoom :=
  { id := "rb", name := "bob", creator := "u2", playURL := "pb", rtcRoom := "rb",
    status := RoomStatus.single, partnerRoomID := none }

/-- The first room after the pairing transition. -/
def roomAPaired : LiveRoom :=
  { id := "ra", name := "alice", creator := "u1", playURL := "pa", rtcRoom := "ra",
    status := RoomStatus.pkConnected, partnerRoomID := some "rb" }

/-- The second room after the pairing transition. -/
def roomBPaired : LiveRoom :=
  { id := "rb", name := "bob", creator := "u2", playURL := "pb", rtcRoom := "rb",
    status := RoomStatus.pkConnected, partnerRoomID := some "ra" }

/-- The concrete reachable paired state: two rooms created and paired. -/
def pairedState : List LiveRoom := [roomBPaired, roomAPaired]

theorem pairedState_reachable : ReachableRoomState pairedState :=
  @ReachableRoomState.pk [roomBSingle, roomASingle] pairedState "ra" "rb"
    (@ReachableRoomState.create [roomASingle] [roomBSingle, roomASingle]
      "u2" "rb" "bob" "pb"
      (@ReachableRoomState.create [] [roomASingle] "u1" "ra" "alice" "pa"
        ReachableRoomState.init (by decide))
      (by decide))
    (by decide)

theorem reachable_pk_partner_symmetric_witness :
    roomBPaired.partnerRoomID = some roomAPaired.id ∧
    roomAPaired.status = RoomStatus.pkConnected ∧
    roomBPaired.status = RoomStatus.pkConnected ∧
    ∀ C ∈ pairedState, C.partnerRoomID = some roomBPaired.id → C = roomAPaired :=
  reachable_pk_partner_symmetric pairedState_reachable
    (by simp [pairedState]) (by simp [pairedState]) rfl

/-- A sample room used as the concrete failing input of the listing
claims: Single status, hence not closed. -/
def sampleRoom : LiveRoom :=
  { id := "r1", name := "room1", creator := "u1", playURL := "pu", rtcRoom := "r1",
    status := RoomStatus.single, partnerRoomID := none }

/-- C1: with one Single (hence non-closed) room in the collection and the
can_pk flag absent, the ListRooms handler writes no response body at all,
because the body of ListAllRooms is empty — it does not return the
non-closed rooms. -/
theorem ListRooms_no_flag_writes_nothing :
    ListRooms none [sampleRoom] "u2" = [] ∧ sampleRoom.status ≠ RoomStatus.closed :=
  ⟨rfl, by decide⟩

/-- C3: with one Single room of another creator in the collection, the
ListCanPKRooms handler builds in its body exactly the ID-and-Name list
the claim describes, but writes nothing to the caller: the c.JSON call is
missing. -/
theorem ListCanPKRooms_drops_response :
    (ListCanPKRooms [sampleRoom] "u2").1 = [{ id := "r1", name := "room1" }] ∧
    (ListCanPKRooms [sampleRoom] "u2").2 = [] :=
  ⟨by decide, rfl⟩

/-- C4 counterexample: a NoPermission ServerError from the CloseRoom
handler is answered 500, not 403: the switch has no NoPermission case,
so the code falls to the default branch. -/
theorem closeRoom_noPermission_not_403 :
    ¬ closeRoomErrStatus ServerErrorCode.noPermission = 403 := by decide

/-- C4 amended: the CreateRoom handler maps RoomNameUsed to 409,
TooManyRooms to 503 and every other code to 500; the CloseRoom handler
maps RoomNotFound to 404 and every other code, NoPermission included, to
500. -/
theorem roomHandler_error_status_table :
    createRoomErrStatus ServerErrorCode.roomNameUsed = 409 ∧
    createRoomErrStatus ServerErrorCode.tooManyRooms = 503 ∧
    closeRoomErrStatus ServerErrorCode.roomNotFound = 404 ∧
    closeRoomErrStatus ServerErrorCode.noPermission = 500 ∧
    (∀ e, e ≠ ServerErrorCode.roomNameUsed → e ≠ ServerErrorCode.tooManyRooms →
      createRoomErrStatus e = 500) ∧
    (∀ e, e ≠ ServerErrorCode.roomNotFound → closeRoomErrStatus e = 500) := by
  refine ⟨rfl, rfl, rfl, rfl, ?_, ?_⟩
  · intro e h1 h2
    cases e <;> first | rfl | exact absurd rfl h1 | exact absurd rfl h2
  · intro e h1
    cases e <;> first | rfl | exact absurd rfl h1

/-- C5: the 12-character string a13812345678 is not a well-formed phone
number, yet validatePhoneNumber accepts it — the unanchored MatchString
finds the 11-digit pattern as a proper substring — and SendSMSCode then
answers 200 and dispatches a code instead of failing with 400. -/
theorem SendSMSCode_accepts_malformed :
    wellFormedPhone "a13812345678" = false ∧
    validatePhoneNumber "a13812345678" = true ∧
    SendSMSCode (some "a13812345678") none = ⟨200, true⟩ :=
  ⟨by decide, by decide, by decide⟩

/-- C6: with no user ID in the request context the Logout handler writes
401 and then, for want of a return statement, panics on the nil type
assertion; no session deletion happens, but the handler does not
terminate normally. -/
theorem Logout_missing_id_panics :
    Logout none false = ⟨[401], false, true⟩ := by decide

/-- C8: GetIDByToken answers the account ID of a stored active-session
record whose token equals the input exactly when such a record exists,
fails with an error when none does, and leaves the stored collection
unchanged in both outcomes. -/
theorem GetIDByToken_spec (activeUsers : List ActiveUser) (token : String) :
    (GetIDByToken activeUsers token).2 = activeUsers ∧
    ((∃ u ∈ activeUsers, u.token = token) →
      ∃ u ∈ activeUsers, u.token = token ∧
        (GetIDByToken activeUsers token).1 = Except.ok u.id) ∧
    ((∀ u ∈ activeUsers, u.token ≠ token) →
      ∃ e, (GetIDByToken activeUsers token).1 = Except.error e) := by
  unfold GetIDByToken
  cases hf : activeUsers.find? (fun u => u.token == token) with
  | none =>
      refine ⟨rfl, ?_, fun _ => ⟨_, rfl⟩⟩
      intro ⟨u, hu, hut⟩
      have := List.find?_eq_none.mp hf u hu
      simp [hut] at this
  | some u =>
      refine ⟨rfl, ?_, ?_⟩
      · intro _
        exact ⟨u, List.mem_of_find?_eq_some hf,
          by simpa using List.find?_some hf, rfl⟩
      · intro hall
        have hmem := List.mem_of_find?_eq_some hf
        have htok : u.token = token := by simpa using List.find?_some hf
        exact absurd htok (hall u hmem)

/-- The seven codes of the WSErrorToString table. -/
def wsCodes : List Int := [0, 10001, 10002, 10003, 10011, 10012, 10013]

theorem wsErrorToString_isSome_iff (code : Int) :
    (WSErrorToString code).isSome = true ↔ code ∈ wsCodes := by
  unfold WSErrorToString wsCodes
  split_ifs <;> simp_all

/-- C9: the real-time-channel error table is defined on exactly the
seven codes 0, 10001, 10002, 10003, 10011, 10012 and 10013, maps each to
its listed fixed description, and distinct codes map to distinct
descriptions. -/
theorem WSErrorToString_table :
    WSErrorToString 0 = some "" ∧
    WSErrorToString 10001 = some "unknown message" ∧
    WSErrorToString 10002 = some "token invalid" ∧
    WSErrorToString 10003 = some "no permission" ∧
    WSErrorToString 10011 = some "room no exist" ∧
    WSErrorToString 10012 = some "room in PK" ∧
    WSErrorToString 10013 = some "room not in PK" ∧
    (∀ code : Int, (WSErrorToString code).isSome = true ↔
      code = 0 ∨ code = 10001 ∨ code = 10002 ∨ code = 10003 ∨
      code = 10011 ∨ code = 10012 ∨ code = 10013) ∧
    (∀ c1 c2 : Int, ∀ d : String, WSErrorToString c1 = some d →
      WSErrorToString c2 = some d → c1 = c2) := by
  refine ⟨rfl, rfl, rfl, rfl, rfl, rfl, rfl, ?_, ?_⟩
  · intro code
    rw [wsErrorToString_isSome_iff]
    simp [wsCodes]
  · intro c1 c2 d h1 h2
    have m1 : c1 ∈ wsCodes := (wsErrorToString_isSome_iff c1).mp (by rw [h1]; rfl)
    have m2 : c2 ∈ wsCodes := (wsErrorToString_isSome_iff c2).mp (by rw [h2]; rfl)
    have hinj : ∀ x ∈ wsCodes, ∀ y ∈ wsCodes,
        WSErrorToString x = WSErrorToString y → x = y := by decide
    exact hinj c1 m1 c2 m2 (by rw [h1, h2])

/-- C7: every successful CreateRoom hands storage a room with Single
status, the caller as Creator, an ID of sixteen characters over the
alphabet of digits and lowercase letters, and a PlayURL equal to
rtmp colon-slash-slash host slash hub slash room ID — a deterministic
function of the room ID and the configured host and hub. -/
theorem CreateRoom_room_shape (h : RoomHandler) (userID roomName : String)
    (r : Nat → Fin 36) (room : LiveRoom) (resp : CreateRoomResponse)
    (hok : h.CreateRoom userID roomName r none = CreateRoomResult.ok room resp) :
    room.status = RoomStatus.single ∧ room.creator = userID ∧
    room.id.length = 16 ∧ (∀ ch ∈ room.id.data, ch ∈ alphaNum) ∧
    room.playURL = "rtmp://" ++ h.liveHost ++ "/" ++ h.liveHub ++ "/" ++ room.id := by
  unfold RoomHandler.CreateRoom at hok
  rcases hval : validateRoomName roomName with _ | _
  · rw [hval] at hok
    simp at hok
  · rw [hval] at hok
    rw [if_neg (show ¬ (true = false) by decide)] at hok
    dsimp only at hok
    injection hok with h1 h2
    subst h1
    refine ⟨rfl, rfl, ?_, ?_, rfl⟩
    · show (generateRoomID r).length = 16
      unfold generateRoomID
      simp [String.length]
    · intro ch hch
      have hch2 : ch ∈ (List.range 16).map
          (fun i => alphaNum.get (Fin.cast alphaNum_length.symm (r i))) := hch
      obtain ⟨i, _, hi⟩ := List.mem_map.mp hch2
      rw [hi.symm]
      exact List.get_mem _ _ _

theorem CreateRoom_room_shape_witness :
    ∃ room resp,
      RoomHandler.CreateRoom ⟨"host", "hub"⟩ "u1" "myroom" (fun _ => 0) none =
        CreateRoomResult.ok room resp ∧
      room.status = RoomStatus.single ∧ room.creator = "u1" ∧
      room.id.length = 16 ∧ (∀ ch ∈ room.id.data, ch ∈ alphaNum) ∧
      room.playURL = "rtmp://" ++ "host" ++ "/" ++ "hub" ++ "/" ++ room.id := by
  obtain ⟨room, resp, hok⟩ :
      ∃ room resp,
        RoomHandler.CreateRoom ⟨"host", "hub"⟩ "u1" "myroom" (fun _ => 0) none =
          CreateRoomResult.ok room resp := ⟨_, _, rfl⟩
  exact ⟨room, resp, hok, CreateRoom_room_shape _ _ _ _ _ _ hok⟩

/-- C10: every successful CreateRoom response carries an empty
RTCRoomToken: generateRTCRoomToken is unimplemented and returns the
empty string, so no caller receives a usable RTC token. -/
theorem CreateRoom_rtcRoomToken_empty (h : RoomHandler) (userID roomName : String)
    (r : Nat → Fin 36) (room : LiveRoom) (resp : CreateRoomResponse)
    (hok : h.CreateRoom userID roomName r none = CreateRoomResult.ok room resp) :
    resp.rtcRoomToken = "" := by
  unfold RoomHandler.CreateRoom at hok
  rcases hval : validateRoomName roomName with _ | _
  · rw [hval] at hok
    simp at hok
  · rw [hval] at hok
    rw [if_neg (show ¬ (true = false) by decide)] at hok
    dsimp only at hok
    injection hok with h1 h2
    subst h2
    rfl

theorem CreateRoom_rtcRoomToken_empty_witness :
    ∃ room resp,
      RoomHandler.CreateRoom ⟨"lhost", "lhub"⟩ "u2" "room2" (fun _ => 1) none =
        CreateRoomResult.ok room resp ∧ resp.rtcRoomToken = "" := by
  obtain ⟨room, resp, hok⟩ :
      ∃ room resp,
        RoomHandler.CreateRoom ⟨"lhost", "lhub"⟩ "u2" "room2" (fun _ => 1) none =
          CreateRoomResult.ok room resp := ⟨_, _, rfl⟩
  exact ⟨room, resp, hok, CreateRoom_rtcRoomToken_empty _ _ _ _ _ _ hok⟩

end QLive
